import Mathlib

/-!
  Verification of the SynapseTrader frontend session core.

  Shallow embedding of the conversational session controller implemented by
  the React component EnhancedConversation (frontend/src/components/
  EnhancedConversation.tsx), the recorder component AnimatedAudioRecorder
  (frontend/src/components/AnimatedAudioRecorder.tsx) and the HTTP gateway
  class ApiService.  The repository carries two revisions of ApiService:
  the full one covering every backend endpoint (src/unnamed/part_001) and an
  older copy at frontend/src/services/api.ts; both are embedded below, with
  the full one as the RemoteGateway described by the specification.

  The handlers are async JavaScript functions running on a single-threaded
  event loop; each one is split at its await point into a start step (the
  code before the awaited gateway call) and a resolve step (the continuation
  that runs when the promise settles).  React setState functional updates
  are plain state transformers here.  Timestamps (new Date) are supplied as
  natural-number parameters; audio blobs are opaque byte lists.
-/

/-- Role of a chat message: the role field of Message in
frontend/src/types/conversation.ts (user or assistant). -/
inductive Role where
  | user
  | assistant
  deriving DecidableEq, Repr

/-- Message from frontend/src/types/conversation.ts: role, content and a
timestamp (new Date at creation, modeled as a natural number). -/
structure Message where
  role : Role
  content : String
  timestamp : Nat
  deriving DecidableEq, Repr

/-- ConversationState from frontend/src/types/conversation.ts: the
transcript, the loading flag and the last error message. -/
structure ConversationState where
  messages : List Message
  isLoading : Bool
  error : Option String
  deriving DecidableEq, Repr

/-- The full state of the EnhancedConversation component: the conversation
useState plus the isConversationActive useState (lines 33-39). -/
structure ComponentState where
  conversation : ConversationState
  isConversationActive : Bool
  deriving DecidableEq, Repr

/-- Initial conversation state (EnhancedConversation.tsx lines 33-37). -/
def initialConversation : ConversationState :=
  { messages := [], isLoading := false, error := none }

/-- Builds the user message record of lines 63-67 and 118-122. -/
def userTurn (c : String) (t : Nat) : Message :=
  { role := Role.user, content := c, timestamp := t }

/-- Builds the assistant message record of lines 80-84 and 124-128. -/
def assistantTurn (c : String) (t : Nat) : Message :=
  { role := Role.assistant, content := c, timestamp := t }

/-- Translation of the JavaScript String.prototype.trim call in the guard
on line 61 of EnhancedConversation.tsx: drops leading and trailing
whitespace characters. -/
def jsTrim (s : String) : String :=
  String.mk (((s.data.dropWhile Char.isWhitespace).reverse.dropWhile
    Char.isWhitespace).reverse)

/-- ChatResponse from frontend/src/types/conversation.ts: reply text plus an
optional audio reference. -/
structure ChatResponse where
  text : String
  audio_url : Option String
  deriving DecidableEq, Repr

/-- A JavaScript value reaching a catch block: either an Error object
carrying a message, or some other thrown value. -/
inductive ThrownValue where
  | error (message : String)
  | nonError
  deriving DecidableEq, Repr

/-- The expression on line 102 and line 146 of EnhancedConversation.tsx:
message of the thrown Error, or a fixed fallback text otherwise. -/
def thrownMessage : ThrownValue → String
  | ThrownValue.error m => m
  | ThrownValue.nonError => "An error occurred"

/-- Settlement of the awaited gateway promise: fulfilled with a decoded
ChatResponse, or rejected with a thrown value. -/
inductive Outcome where
  | success (response : ChatResponse)
  | failure (thrown : ThrownValue)
  deriving DecidableEq, Repr

/-- Playback effect of lines 93-96 and 137-140 of EnhancedConversation.tsx:
when response.audio_url is truthy (present and nonempty, by JavaScript
truthiness) and the player ref is mounted, the sink gets exactly one play
call with that reference.  Returns the list of play calls issued. -/
def playbackCalls (audioUrl : Option String) (playerAvailable : Bool) :
    List String :=
  match audioUrl with
  | some u => if u ≠ "" ∧ playerAvailable = true then [u] else []
  | none => []

/-- First half of handleSendMessage (EnhancedConversation.tsx lines 60-74),
up to the awaited gateway call: return early on blank content, otherwise
append the User turn optimistically, set isLoading and clear error.  The
second component records whether the gateway request was issued. -/
def handleSendMessageStart (content : String) (now : Nat)
    (s : ConversationState) : ConversationState × Bool :=
  if jsTrim content = "" then (s, false)
  else
    ({ s with
        messages := s.messages ++ [userTurn content now],
        isLoading := true,
        error := none }, true)

/-- Continuation of handleSendMessage after the gateway promise settles
(lines 76-104): on success append the Assistant turn, drop isLoading and
issue the playback call when the reply carries audio; on failure drop
isLoading and record the error message.  The second component is the list
of play calls issued. -/
def handleSendMessageResolve (o : Outcome) (now : Nat)
    (playerAvailable : Bool) (s : ConversationState) :
    ConversationState × List String :=
  match o with
  | Outcome.success r =>
      ({ s with
          messages := s.messages ++ [assistantTurn r.text now],
          isLoading := false },
        playbackCalls r.audio_url playerAvailable)
  | Outcome.failure tv =>
      ({ s with isLoading := false, error := some (thrownMessage tv) }, [])

/-- First half of handleProcessRecording (lines 107-113): set isLoading and
clear error before the awaited gateway call.  No turn is appended here. -/
def handleProcessRecordingStart (s : ConversationState) : ConversationState :=
  { s with isLoading := true, error := none }

/-- Continuation of handleProcessRecording (lines 114-148): on success
append the placeholder User turn and the Assistant turn together, drop
isLoading and issue the playback call when the reply carries audio; on
failure drop isLoading and record the error message. -/
def handleProcessRecordingResolve (o : Outcome) (now : Nat)
    (playerAvailable : Bool) (s : ConversationState) :
    ConversationState × List String :=
  match o with
  | Outcome.success r =>
      ({ s with
          messages := s.messages ++
            [userTurn "[Voice Message]" now, assistantTurn r.text now],
          isLoading := false },
        playbackCalls r.audio_url playerAvailable)
  | Outcome.failure tv =>
      ({ s with isLoading := false, error := some (thrownMessage tv) }, [])

/-- handleStartConversation (lines 51-53): activates the conversation. -/
def handleStartConversation (s : ComponentState) : ComponentState :=
  { s with isConversationActive := true }

/-- handleEndConversation (lines 55-58): deactivates the conversation and
clears messages; the functional update spreads the previous state, so
isLoading and error are kept as they were. -/
def handleEndConversation (s : ComponentState) : ComponentState :=
  { s with
      isConversationActive := false,
      conversation := { s.conversation with messages := [] } }

/-- AnimatedAudioRecorder.tsx: the record toggle (line 84) and the send
button (line 234) both carry a disabled attribute equal to the isLoading
prop, so they cannot be clicked while a reply is outstanding. -/
def sendButtonDisabled (isLoading : Bool) : Bool := isLoading

/-- Base URL of the backend, from both ApiService revisions (line 3). -/
def API_BASE_URL : String := "http://localhost:8000"

/-- An audio blob produced by the recorder: opaque bytes plus a MIME type
(webm container with opus codec per the recorder hook). -/
structure AudioClip where
  bytes : List Nat
  mimeType : String
  deriving DecidableEq, Repr

/-- Body of an outgoing request: a JSON payload, a multipart form carrying
one audio blob under a filename, or nothing (GET and DELETE calls). -/
inductive RequestBody where
  | jsonBody (payload : String)
  | audioForm (clip : AudioClip) (filename : String)
  | emptyBody
  deriving DecidableEq, Repr

/-- One HTTP request as constructed by a fetch call. -/
structure HttpRequest where
  method : String
  url : String
  body : RequestBody
  deriving DecidableEq, Repr

/-- An HTTP response as observed through fetch: numeric status, status
text, raw body text, and the JSON decoding of the body (consulted only on
success paths). -/
structure HttpResponse (α : Type) where
  status : Nat
  statusText : String
  body : String
  json : α

/-- The fetch Response.ok flag: status in the 2xx range. -/
def respOk {α : Type} (r : HttpResponse α) : Bool :=
  decide (200 ≤ r.status) && decide (r.status ≤ 299)

/-- The error value thrown by the gateway on a non-success response. -/
structure NetworkError where
  message : String
  deriving DecidableEq, Repr

namespace ApiService

/-! Embedding of the full ApiService revision (src/unnamed/part_001), the
RemoteGateway of the specification: it covers chat, audio chat, speech to
text, text to speech, history fetch and clear, health and status. -/

/-- Requests issued by one makeRequest call (part_001 lines 6-26): exactly
one fetch to the base URL plus the endpoint; the request list does not
depend on any response, so no retry can occur. -/
def makeRequestRequests (endpoint method : String) (b : RequestBody) :
    List HttpRequest :=
  [{ method := method, url := API_BASE_URL ++ endpoint, body := b }]

/-- Result handling of makeRequest (part_001 lines 20-25): a non-ok
response throws an Error whose message carries the status text and the
response body; an ok response resolves with the decoded JSON. -/
def makeRequestHandle {α : Type} (resp : HttpResponse α) :
    Except NetworkError α :=
  if respOk resp then Except.ok resp.json
  else
    Except.error
      { message :=
          "API request failed: " ++ resp.statusText ++ " - " ++ resp.body }

/-- sendTextMessage (part_001 lines 28-33): one POST of the text to the
chat endpoint through makeRequest. -/
def sendTextMessageRequests (text : String) : List HttpRequest :=
  makeRequestRequests "/api/chat" "POST" (RequestBody.jsonBody text)

/-- Requests issued by sendAudioMessage (part_001 lines 35-50): exactly one
POST of the clip, as a multipart form under the name recording.webm, to the
combined audio chat endpoint. -/
def sendAudioMessageRequests (clip : AudioClip) : List HttpRequest :=
  [{ method := "POST",
     url := API_BASE_URL ++ "/api/audio-chat",
     body := RequestBody.audioForm clip "recording.webm" }]

/-- Result handling of sendAudioMessage (part_001 lines 44-49): non-ok
throws with status text and body, ok resolves with the decoded
ChatResponse. -/
def sendAudioMessageHandle (resp : HttpResponse ChatResponse) :
    Except NetworkError ChatResponse :=
  if respOk resp then Except.ok resp.json
  else
    Except.error
      { message :=
          "Audio processing failed: " ++ resp.statusText ++ " - " ++
            resp.body }

end ApiService

namespace ApiServiceOld

/-! Embedding of the older ApiService copy at frontend/src/services/api.ts.
It differs from the full revision in two ways: sendAudioMessage posts to
the transcription-only speech to text endpoint instead of the combined
audio chat endpoint (lines 34-48), and makeRequest omits the response body
from the thrown error message (lines 20-22). -/

/-- Requests issued by the older sendAudioMessage (api.ts lines 34-48). -/
def sendAudioMessageRequests (clip : AudioClip) : List HttpRequest :=
  [{ method := "POST",
     url := API_BASE_URL ++ "/api/speech-to-text",
     body := RequestBody.audioForm clip "recording.webm" }]

/-- Result handling of the older makeRequest (api.ts lines 20-24). -/
def makeRequestHandle {α : Type} (resp : HttpResponse α) :
    Except NetworkError α :=
  if respOk resp then Except.ok resp.json
  else Except.error { message := "API request failed: " ++ resp.statusText }

end ApiServiceOld

/-- Settlement of the awaited ApiService.sendTextMessage call as seen by
handleSendMessage: a 2xx response fulfills with the decoded ChatResponse;
a non-2xx response rejects with the NetworkError thrown by makeRequest,
which the catch block receives as an Error value. -/
def sendTextOutcome (resp : HttpResponse ChatResponse) : Outcome :=
  match ApiService.makeRequestHandle resp with
  | Except.ok r => Outcome.success r
  | Except.error e => Outcome.failure (ThrownValue.error e.message)

/-- One atomic event-loop step touching the conversation state: the start
or resolve half of either handler.  Each continuation runs to completion
before any other event, matching the single-threaded event loop. -/
inductive ConvEvent where
  | textStart (content : String) (now : Nat)
  | textResolve (o : Outcome) (now : Nat) (player : Bool)
  | recStart
  | recResolve (o : Outcome) (now : Nat) (player : Bool)

/-- State transformer of one atomic event. -/
def convStep : ConvEvent → ConversationState → ConversationState
  | ConvEvent.textStart c t, s => (handleSendMessageStart c t s).1
  | ConvEvent.textResolve o t p, s => (handleSendMessageResolve o t p s).1
  | ConvEvent.recStart, s => handleProcessRecordingStart s
  | ConvEvent.recResolve o t p, s =>
      (handleProcessRecordingResolve o t p s).1

/-- One complete, non-overlapping exchange: a text submission or a voice
submission whose gateway call settles before the next user action. -/
inductive Exchange where
  | text (content : String) (tu ta : Nat) (o : Outcome) (player : Bool)
  | voice (ta : Nat) (o : Outcome) (player : Bool)

/-- Runs one complete exchange: the start step, then, when a request was
issued, the resolve step of its own continuation. -/
def runExchange : Exchange → ConversationState → ConversationState
  | Exchange.text c tu ta o p, s =>
      let r := handleSendMessageStart c tu s
      if r.2 then (handleSendMessageResolve o ta p r.1).1 else r.1
  | Exchange.voice ta o p, s =>
      (handleProcessRecordingResolve o ta p
        (handleProcessRecordingStart s)).1

/-- Runs a sequence of complete exchanges from a starting state. -/
def runExchanges (l : List Exchange) (s : ConversationState) :
    ConversationState :=
  l.foldl (fun st e => runExchange e st) s

/-- Causal block shape of a transcript: a concatenation of blocks, each
being a lone User turn or a User turn immediately followed by the
Assistant turn of the same exchange. -/
inductive CausalBlocks : List Message → Prop where
  | nil : CausalBlocks []
  | userOnly (ms : List Message) (c : String) (t : Nat) :
      CausalBlocks ms → CausalBlocks (ms ++ [userTurn c t])
  | exchangePair (ms : List Message) (c r : String) (tu ta : Nat) :
      CausalBlocks ms →
      CausalBlocks (ms ++ [userTurn c tu, assistantTurn r ta])

/-! ## Helper lemmas -/

/-- A string all of whose characters are whitespace trims to empty. -/
theorem jsTrim_eq_empty_of_whitespace (s : String)
    (h : ∀ ch ∈ s.data, ch.isWhitespace = true) : jsTrim s = "" := by
  have h1 : s.data.dropWhile Char.isWhitespace = [] :=
    List.dropWhile_eq_nil_iff.mpr h
  simp [jsTrim, h1]

/-! ## Claim C10 -/

/-- Claim C10: for every content string that is empty or consists only of
whitespace, handleSendMessage is a no-op: the whole conversation state
(messages, isLoading, error) is returned unchanged and no gateway request
is issued. -/
theorem claim10_blank_submit_is_noop (s : ConversationState) (c : String)
    (t : Nat) (h : ∀ ch ∈ c.data, ch.isWhitespace = true) :
    handleSendMessageStart c t s = (s, false) := by
  simp [handleSendMessageStart, jsTrim_eq_empty_of_whitespace c h]

/-- Witness for claim C10 at the concrete whitespace-only input. -/
theorem claim10_witness :
    handleSendMessageStart "  " 0 initialConversation =
      (initialConversation, false) :=
  claim10_blank_submit_is_noop initialConversation "  " 0 (by decide)

/-! ## Claim C1 -/

/-- Claim C1 fails on the code: with an exchange outstanding (isLoading
true), a handleSendMessage call is not rejected; it mutates the transcript,
appending its User turn to the previously empty messages list. -/
theorem claim1_counterexample :
    (handleSendMessageStart "a" 0
        { messages := [], isLoading := true, error := none }).1.messages =
      [userTurn "a" 0] ∧
    (handleSendMessageStart "a" 0
        { messages := [], isLoading := true, error := none }).1.messages ≠
      ([] : List Message) := by
  decide

/-- Claim C1 as amended: the handlers perform no busy check, so a second
handleSendMessage call while isLoading is true proceeds, appending its User
turn and issuing a second gateway request; serialization exists only in the
recorder UI, whose record and send buttons are disabled while isLoading, so
a second sendRecording cannot be initiated there, and no busy condition is
signalled anywhere. -/
theorem claim1_amended (s : ConversationState) (c : String) (t : Nat)
    (hbusy : s.isLoading = true) (hc : jsTrim c ≠ "") :
    (handleSendMessageStart c t s).1.messages =
      s.messages ++ [userTurn c t] ∧
    (handleSendMessageStart c t s).2 = true ∧
    sendButtonDisabled s.isLoading = true := by
  simp [handleSendMessageStart, sendButtonDisabled, hc, hbusy]

/-- Witness for the amended claim C1 at a concrete busy state. -/
theorem claim1_witness :
    (handleSendMessageStart "a" 0
        { messages := [], isLoading := true, error := none }).1.messages =
      ({ messages := [], isLoading := true, error := none } :
        ConversationState).messages ++ [userTurn "a" 0] ∧
    (handleSendMessageStart "a" 0
        { messages := [], isLoading := true, error := none }).2 = true ∧
    sendButtonDisabled ({ messages := [], isLoading := true, error := none } :
        ConversationState).isLoading = true :=
  claim1_amended { messages := [], isLoading := true, error := none } "a" 0
    rfl (by decide)

/-! ## Claim C3 -/

/-- Claim C3 fails on the code: handleEndConversation does not clear the
last error; from a state with a recorded error it returns a state whose
error field is unchanged rather than cleared. -/
theorem claim3_counterexample :
    (handleEndConversation
        { conversation :=
            { messages := [], isLoading := false, error := some "boom" },
          isConversationActive := true }).conversation.error = some "boom" ∧
    (handleEndConversation
        { conversation :=
            { messages := [], isLoading := false, error := some "boom" },
          isConversationActive := true }).conversation.error ≠ none := by
  decide

/-- Claim C3 as amended: for every prior state, including mid-exchange,
handleEndConversation deactivates the session and empties the transcript,
but it leaves lastError and isLoading exactly as they were instead of
clearing them. -/
theorem claim3_amended (s : ComponentState) :
    (handleEndConversation s).isConversationActive = false ∧
    (handleEndConversation s).conversation.messages = [] ∧
    (handleEndConversation s).conversation.error = s.conversation.error ∧
    (handleEndConversation s).conversation.isLoading =
      s.conversation.isLoading := by
  simp [handleEndConversation]

/-! ## Claim C2 -/

/-- Every atomic step of either handler only ever appends to the
transcript: the new messages list is the old one followed by some tail. -/
theorem convStep_messages_extends (e : ConvEvent) (s : ConversationState) :
    ∃ tail, (convStep e s).messages = s.messages ++ tail := by
  cases e with
  | textStart c t =>
      by_cases h : jsTrim c = ""
      · exact ⟨[], by simp [convStep, handleSendMessageStart, h]⟩
      · exact ⟨[userTurn c t], by simp [convStep, handleSendMessageStart, h]⟩
  | textResolve o t p =>
      cases o with
      | success r =>
          exact ⟨[assistantTurn r.text t],
            by simp [convStep, handleSendMessageResolve]⟩
      | failure tv => exact ⟨[], by simp [convStep, handleSendMessageResolve]⟩
  | recStart => exact ⟨[], by simp [convStep, handleProcessRecordingStart]⟩
  | recResolve o t p =>
      cases o with
      | success r =>
          exact ⟨[userTurn "[Voice Message]" t, assistantTurn r.text t],
            by simp [convStep, handleProcessRecordingResolve]⟩
      | failure tv =>
          exact ⟨[], by simp [convStep, handleProcessRecordingResolve]⟩

/-- One complete, non-overlapping exchange preserves the causal block shape
of the transcript. -/
theorem runExchange_causal (x : Exchange) (s : ConversationState)
    (h : CausalBlocks s.messages) :
    CausalBlocks (runExchange x s).messages := by
  cases x with
  | text c tu ta o p =>
      by_cases hc : jsTrim c = ""
      · simpa [runExchange, handleSendMessageStart, hc] using h
      · cases o with
        | success r =>
            have h2 := CausalBlocks.exchangePair s.messages c r.text tu ta h
            simpa [runExchange, handleSendMessageStart, hc,
              handleSendMessageResolve] using h2
        | failure tv =>
            have h2 := CausalBlocks.userOnly s.messages c tu h
            simpa [runExchange, handleSendMessageStart, hc,
              handleSendMessageResolve] using h2
  | voice ta o p =>
      cases o with
      | success r =>
          have h2 :=
            CausalBlocks.exchangePair s.messages "[Voice Message]" r.text ta
              ta h
          simpa [runExchange, handleProcessRecordingStart,
            handleProcessRecordingResolve] using h2
      | failure tv =>
          simpa [runExchange, handleProcessRecordingStart,
            handleProcessRecordingResolve] using h

/-- A sequence of complete exchanges preserves the causal block shape. -/
theorem runExchanges_causal (l : List Exchange) (s : ConversationState)
    (h : CausalBlocks s.messages) :
    CausalBlocks (runExchanges l s).messages := by
  induction l generalizing s with
  | nil => simpa [runExchanges] using h
  | cons x xs ih =>
      have h1 := runExchange_causal x s h
      simpa [runExchanges] using ih (runExchange x s) h1

/-- Claim C2 fails on the code: because a second submission is not rejected
while a reply is outstanding, two overlapping text exchanges can interleave.
Concretely, submit a, then submit b before a resolves, then let the
continuation of the first exchange run when its reply ra arrives: the
Assistant turn ra triggered by User turn a lands at index 2, immediately
after User turn b rather than after its triggering User turn a at index 0. -/
theorem claim2_counterexample :
    (convStep
        (ConvEvent.textResolve
          (Outcome.success { text := "ra", audio_url := none }) 3 true)
        (convStep (ConvEvent.textStart "b" 2)
          (convStep (ConvEvent.textStart "a" 1)
            initialConversation))).messages =
      [userTurn "a" 1, userTurn "b" 2, assistantTurn "ra" 3] ∧
    (convStep
        (ConvEvent.textResolve
          (Outcome.success { text := "ra", audio_url := none }) 3 true)
        (convStep (ConvEvent.textStart "b" 2)
          (convStep (ConvEvent.textStart "a" 1)
            initialConversation))).messages.get? 1 ≠
      some (assistantTurn "ra" 3) := by
  decide

/-- Claim C2 as amended: the transcript is append-only and never reordered
under every interleaving of handler steps; and for sequences of complete,
non-overlapping exchanges (each gateway call settling before the next user
action, which is the only discipline the code serializes), the transcript
is a concatenation of causal blocks: every Assistant turn immediately
follows the User turn of its own exchange, and a failed exchange
contributes no Assistant turn. -/
theorem claim2_amended :
    (∀ (e : ConvEvent) (s : ConversationState),
      ∃ tail, (convStep e s).messages = s.messages ++ tail) ∧
    (∀ l : List Exchange,
      CausalBlocks (runExchanges l initialConversation).messages) :=
  ⟨convStep_messages_extends, fun l =>
    runExchanges_causal l initialConversation CausalBlocks.nil⟩

/-! ## Claim C4 -/

/-- Claim C4 fails on the code: handleEndConversation does not cancel the
outstanding exchange and its continuation is not discarded.  Concretely,
submit hi, end the conversation (transcript cleared), then let the reply yo
arrive: its Assistant turn is appended to the since-cleared transcript. -/
theorem claim4_counterexample :
    (handleEndConversation
        { conversation := (handleSendMessageStart "hi" 1
            initialConversation).1,
          isConversationActive := true }).conversation.messages = [] ∧
    (handleSendMessageResolve
        (Outcome.success { text := "yo", audio_url := none }) 2 true
        (handleEndConversation
          { conversation := (handleSendMessageStart "hi" 1
              initialConversation).1,
            isConversationActive := true }).conversation).1.messages =
      [assistantTurn "yo" 2] := by
  decide

/-- Claim C4 as amended: endSession performs no cancellation.  If the
conversation is ended while a text exchange is outstanding, the transcript
is cleared, and when the response later arrives its continuation still
runs: the Assistant turn is appended to the since-cleared transcript
instead of being discarded. -/
theorem claim4_amended (s : ComponentState) (c : String) (tu ta : Nat)
    (r : ChatResponse) (p : Bool) (hc : jsTrim c ≠ "") :
    (handleEndConversation
        { s with conversation :=
            (handleSendMessageStart c tu s.conversation).1
          }).conversation.messages = [] ∧
    (handleSendMessageResolve (Outcome.success r) ta p
        (handleEndConversation
          { s with conversation :=
              (handleSendMessageStart c tu s.conversation).1
            }).conversation).1.messages = [assistantTurn r.text ta] := by
  simp [handleSendMessageStart, hc, handleEndConversation,
    handleSendMessageResolve]

/-- Witness for the amended claim C4 at concrete inputs. -/
theorem claim4_witness :
    (handleEndConversation
        { conversation := (handleSendMessageStart "hi" 1
            initialConversation).1,
          isConversationActive := true }).conversation.messages = [] ∧
    (handleSendMessageResolve
        (Outcome.success { text := "yo", audio_url := none }) 2 true
        (handleEndConversation
          { conversation := (handleSendMessageStart "hi" 1
              initialConversation).1,
            isConversationActive := true }).conversation).1.messages =
      [assistantTurn "yo" 2] :=
  claim4_amended
    { conversation := initialConversation, isConversationActive := true }
    "hi" 1 2 { text := "yo", audio_url := none } true (by decide)

/-! ## Claim C5 -/

/-- Claim C5: when a submitText exchange fails with the NetworkError thrown
by the gateway on a non-2xx response, the optimistically appended User turn
remains the only addition to the transcript, no Assistant turn is added,
isLoading returns to false (state Active), and the recorded error is the
network error surfaced by the gateway, carrying the status text and body. -/
theorem claim5_network_failure (s : ConversationState) (c : String)
    (tu ta : Nat) (p : Bool) (resp : HttpResponse ChatResponse)
    (hc : jsTrim c ≠ "") (hresp : respOk resp = false) :
    (handleSendMessageResolve (sendTextOutcome resp) ta p
        (handleSendMessageStart c tu s).1).1.messages =
      s.messages ++ [userTurn c tu] ∧
    (handleSendMessageResolve (sendTextOutcome resp) ta p
        (handleSendMessageStart c tu s).1).1.isLoading = false ∧
    (handleSendMessageResolve (sendTextOutcome resp) ta p
        (handleSendMessageStart c tu s).1).1.error =
      some ("API request failed: " ++ resp.statusText ++ " - " ++
        resp.body) := by
  have houtcome : sendTextOutcome resp =
      Outcome.failure (ThrownValue.error
        ("API request failed: " ++ resp.statusText ++ " - " ++ resp.body)) := by
    simp [sendTextOutcome, ApiService.makeRequestHandle, hresp]
  simp [houtcome, handleSendMessageStart, hc, handleSendMessageResolve,
    thrownMessage]

/-- Witness for claim C5: a concrete 500 response on a concrete
submission. -/
theorem claim5_witness :
    (handleSendMessageResolve
        (sendTextOutcome
          { status := 500, statusText := "Internal Server Error",
            body := "backend down",
            json := { text := "", audio_url := none } }) 2 true
        (handleSendMessageStart "x" 1 initialConversation).1).1.messages =
      initialConversation.messages ++ [userTurn "x" 1] ∧
    (handleSendMessageResolve
        (sendTextOutcome
          { status := 500, statusText := "Internal Server Error",
            body := "backend down",
            json := { text := "", audio_url := none } }) 2 true
        (handleSendMessageStart "x" 1 initialConversation).1).1.isLoading =
      false ∧
    (handleSendMessageResolve
        (sendTextOutcome
          { status := 500, statusText := "Internal Server Error",
            body := "backend down",
            json := { text := "", audio_url := none } }) 2 true
        (handleSendMessageStart "x" 1 initialConversation).1).1.error =
      some ("API request failed: " ++ "Internal Server Error" ++ " - " ++
        "backend down") :=
  claim5_network_failure initialConversation "x" 1 2 true
    { status := 500, statusText := "Internal Server Error",
      body := "backend down", json := { text := "", audio_url := none } }
    (by decide) (by decide)

/-! ## Claim C6 -/

/-- Claim C6 fails on the code: handleProcessRecording appends nothing
before the gateway call, so after a failed voice exchange from an empty
transcript there is no placeholder User turn at all; only the error is
recorded. -/
theorem claim6_counterexample :
    (handleProcessRecordingResolve
        (Outcome.failure (ThrownValue.error "network down")) 1 true
        (handleProcessRecordingStart initialConversation)).1.messages =
      [] ∧
    (handleProcessRecordingResolve
        (Outcome.failure (ThrownValue.error "network down")) 1 true
        (handleProcessRecordingStart initialConversation)).1.error =
      some "network down" := by
  decide

/-- Claim C6 as amended: handleProcessRecording does not append the
placeholder User turn before invoking the gateway.  On failure the
transcript is left exactly as it was, with neither the placeholder nor an
Assistant turn, and only the error and loading flags change; the
placeholder and the Assistant turn are appended together only on
success. -/
theorem claim6_amended (s : ConversationState) (tv : ThrownValue)
    (r : ChatResponse) (t : Nat) (p : Bool) :
    (handleProcessRecordingResolve (Outcome.failure tv) t p
        (handleProcessRecordingStart s)).1.messages = s.messages ∧
    (handleProcessRecordingResolve (Outcome.failure tv) t p
        (handleProcessRecordingStart s)).1.error =
      some (thrownMessage tv) ∧
    (handleProcessRecordingResolve (Outcome.success r) t p
        (handleProcessRecordingStart s)).1.messages =
      s.messages ++ [userTurn "[Voice Message]" t, assistantTurn r.text t]
    := by
  simp [handleProcessRecordingStart, handleProcessRecordingResolve]

/-! ## Claim C7 -/

/-- Claim C7: when a voice exchange succeeds (player mounted), the
transcript gains the placeholder User turn immediately followed by the
Assistant turn carrying the reply text; the playback sink receives exactly
one play call with the audio reference when the reply carries one
(nonempty, by the JavaScript truthiness test the code uses), and no play
call when the reply carries none. -/
theorem claim7_voice_success (s : ConversationState) (r : ChatResponse)
    (t : Nat) :
    (handleProcessRecordingResolve (Outcome.success r) t true
        (handleProcessRecordingStart s)).1.messages =
      s.messages ++ [userTurn "[Voice Message]" t, assistantTurn r.text t] ∧
    (∀ u, r.audio_url = some u → u ≠ "" →
      (handleProcessRecordingResolve (Outcome.success r) t true
        (handleProcessRecordingStart s)).2 = [u]) ∧
    (r.audio_url = none →
      (handleProcessRecordingResolve (Outcome.success r) t true
        (handleProcessRecordingStart s)).2 = []) := by
  refine ⟨by simp [handleProcessRecordingStart,
    handleProcessRecordingResolve], ?_, ?_⟩
  · intro u hu hne
    simp [handleProcessRecordingStart, handleProcessRecordingResolve,
      playbackCalls, hu, hne]
  · intro hn
    simp [handleProcessRecordingStart, handleProcessRecordingResolve,
      playbackCalls, hn]

/-- Witness for claim C7: the scenario with reply noted and an audio
reference gives exactly one play call with that reference; the same reply
without audio gives none. -/
theorem claim7_witness :
    (handleProcessRecordingResolve
        (Outcome.success { text := "noted", audio_url := some "http://h/r1" })
        0 true
        (handleProcessRecordingStart initialConversation)).2 =
      ["http://h/r1"] ∧
    (handleProcessRecordingResolve
        (Outcome.success { text := "noted", audio_url := none }) 0 true
        (handleProcessRecordingStart initialConversation)).2 = [] :=
  ⟨(claim7_voice_success initialConversation
      { text := "noted", audio_url := some "http://h/r1" } 0).2.1
      "http://h/r1" rfl (by decide),
   (claim7_voice_success initialConversation
      { text := "noted", audio_url := none } 0).2.2 rfl⟩

/-! ## Claim C8 -/

/-- Claim C8: for every audio clip, sendAudioMessage constructs exactly one
request, a POST of the clip as a multipart form to the combined audio chat
endpoint, and on a 2xx response it resolves with the decoded ChatResponse,
whose shape is reply text plus an optional audio reference. -/
theorem claim8_sendAudio (clip : AudioClip)
    (resp : HttpResponse ChatResponse) :
    (ApiService.sendAudioMessageRequests clip).length = 1 ∧
    (∀ req ∈ ApiService.sendAudioMessageRequests clip,
      req.method = "POST" ∧
      req.url = API_BASE_URL ++ "/api/audio-chat" ∧
      req.body = RequestBody.audioForm clip "recording.webm") ∧
    (respOk resp = true →
      ApiService.sendAudioMessageHandle resp = Except.ok resp.json) := by
  refine ⟨rfl, ?_, ?_⟩
  · intro req hreq
    simp [ApiService.sendAudioMessageRequests] at hreq
    simp [hreq]
  · intro hok
    simp [ApiService.sendAudioMessageHandle, hok]

/-- Witness for claim C8 at a concrete clip and a concrete 200 response. -/
theorem claim8_witness :
    (ApiService.sendAudioMessageRequests
      { bytes := [1, 2, 3], mimeType := "audio/webm" }).length = 1 ∧
    (∀ req ∈ ApiService.sendAudioMessageRequests
        { bytes := [1, 2, 3], mimeType := "audio/webm" },
      req.method = "POST" ∧
      req.url = API_BASE_URL ++ "/api/audio-chat" ∧
      req.body = RequestBody.audioForm
        { bytes := [1, 2, 3], mimeType := "audio/webm" } "recording.webm") ∧
    (respOk
        ({ status := 200, statusText := "OK", body := "ok",
           json := { text := "noted", audio_url := some "http://h/r1" } } :
          HttpResponse ChatResponse) = true →
      ApiService.sendAudioMessageHandle
          { status := 200, statusText := "OK", body := "ok",
            json := { text := "noted", audio_url := some "http://h/r1" } } =
        Except.ok { text := "noted", audio_url := some "http://h/r1" }) :=
  claim8_sendAudio { bytes := [1, 2, 3], mimeType := "audio/webm" }
    { status := 200, statusText := "OK", body := "ok",
      json := { text := "noted", audio_url := some "http://h/r1" } }

/-! ## Claim C9 -/

/-- Claim C9: every makeRequest call issues exactly one request (the
request list is fixed before any response exists, so there is no retry); a
non-2xx response is surfaced as the thrown NetworkError whose message
carries the underlying status text and response body; a 2xx response
resolves with the decoded JSON and never raises. -/
theorem claim9_makeRequest (endpoint method : String) (b : RequestBody)
    {α : Type} (resp : HttpResponse α) :
    (ApiService.makeRequestRequests endpoint method b).length = 1 ∧
    (respOk resp = false →
      ApiService.makeRequestHandle resp =
        Except.error
          { message := "API request failed: " ++ resp.statusText ++ " - " ++
              resp.body }) ∧
    (respOk resp = true →
      ApiService.makeRequestHandle resp = Except.ok resp.json) := by
  refine ⟨rfl, ?_, ?_⟩
  · intro h
    simp [ApiService.makeRequestHandle, h]
  · intro h
    simp [ApiService.makeRequestHandle, h]

/-- Witness for claim C9: one concrete 404 response surfaces the error with
status text and body, and one concrete 200 response resolves cleanly. -/
theorem claim9_witness :
    (ApiService.makeRequestRequests "/api/chat" "POST"
      (RequestBody.jsonBody "hello")).length = 1 ∧
    ApiService.makeRequestHandle
        ({ status := 404, statusText := "Not Found", body := "missing",
           json := { text := "", audio_url := none } } :
          HttpResponse ChatResponse) =
      Except.error
        { message := "API request failed: " ++ "Not Found" ++ " - " ++
            "missing" } ∧
    ApiService.makeRequestHandle
        ({ status := 200, statusText := "OK", body := "fine",
           json := { text := "hi", audio_url := none } } :
          HttpResponse ChatResponse) =
      Except.ok { text := "hi", audio_url := none } :=
  ⟨(claim9_makeRequest "/api/chat" "POST" (RequestBody.jsonBody "hello")
      ({ status := 404, statusText := "Not Found", body := "missing",
         json := { text := "", audio_url := none } } :
        HttpResponse ChatResponse)).1,
   (claim9_makeRequest "/api/chat" "POST" (RequestBody.jsonBody "hello")
      ({ status := 404, statusText := "Not Found", body := "missing",
         json := { text := "", audio_url := none } } :
        HttpResponse ChatResponse)).2.1 (by decide),
   (claim9_makeRequest "/api/chat" "POST" (RequestBody.jsonBody "hello")
      ({ status := 200, statusText := "OK", body := "fine",
         json := { text := "hi", audio_url := none } } :
        HttpResponse ChatResponse)).2.2 (by decide)⟩
